import Mathlib

/-!
# Checkout Transaction Engine — shallow embedding

This file embeds the checkout pipeline of the repository (the Go backend in
`golang/checkout.go`, plus the two TypeScript fragments the claims cite:
`CheckoutService.computeTax` and `CheckoutController.checkout`) and proves
the frozen claims about it.

Modelling conventions:
* `float64` money amounts are modelled as exact rationals (`ℚ`); decimal
  constants of the source (`0.08`, `5.99`, `0.99`) appear as the fractions
  they denote. Go's `int(x)` float conversion is truncation toward zero,
  JavaScript's `Math.round x` is `⌊x + 1/2⌋`; both are modelled on `ℚ`.
* The relational tables are association lists inside a `DB` record; a SQL
  `SELECT … FOR UPDATE` by key is a lookup, an `UPDATE`/upsert rewrites the
  list. The transaction body threads a candidate `DB`; `processCheckout`
  installs it only on success, which models `COMMIT` versus the deferred
  `tx.Rollback`.
* The Redis collaborator (idempotency cache, fixed-window counter, lock) is
  a `RedisState` record; every Redis command the handler issues is also
  recorded in an effect trace (`Eff`) so that ordering facts ("the result is
  written back before the lock is released") are provable.
* `uuid.New()` is an injected name supply `gen : Nat → String`; `time.Now()`
  is an injected `now : Int` (Unix seconds).
-/

/-- Association-list lookup (a keyed `SELECT`, or a Redis `GET`). -/
def alookup {α β : Type} [DecidableEq α] (k : α) : List (α × β) → Option β
  | [] => none
  | (a, b) :: t => if a = k then some b else alookup k t

/-- Insert-or-replace at a key (a Redis `SET`). -/
def astore {α β : Type} [DecidableEq α] (k : α) (v : β) : List (α × β) → List (α × β)
  | [] => [(k, v)]
  | (a, b) :: t => if a = k then (k, v) :: t else (a, b) :: astore k v t

/-- Rewrite the value stored at a key, if present (a keyed `UPDATE`). -/
def amodify {α β : Type} [DecidableEq α] (k : α) (f : β → β) : List (α × β) → List (α × β)
  | [] => []
  | (a, b) :: t => if a = k then (a, f b) :: t else (a, b) :: amodify k f t

/-- One entry of the request body's `items` array (`CheckoutItem`). -/
structure CheckoutItem where
  productId : String
  qty : Int
deriving DecidableEq, Repr

/-- The request body (`CheckoutRequest`); Go's zero value `""` stands for an
absent `coupon`. -/
structure CheckoutRequest where
  userId : String
  cartId : String
  items : List CheckoutItem
  coupon : String
  paymentRef : String
deriving DecidableEq, Repr

/-- The success payload (`CheckoutResponse`). -/
structure CheckoutResponse where
  orderId : String
  status : String
  total : ℚ
deriving DecidableEq, Repr

/-- One row of the `cart_items ⋈ products` load (`CartItemDB`). -/
structure CartItemDB where
  productId : String
  qty : Int
  unitPrice : ℚ
  status : String
deriving DecidableEq, Repr

/-- One row of `coupons` (`CouponDB`); `maxUses = none` models a NULL cap. -/
structure CouponDB where
  code : String
  ctype : String
  value : ℚ
  maxUses : Option Int
  usedCount : Int
  startsAt : Int
  endsAt : Int
deriving DecidableEq, Repr

/-- One row of `carts`. -/
structure CartRow where
  id : String
  userId : String
  status : String
deriving DecidableEq, Repr

/-- One row of `orders` with its derived amounts. -/
structure OrderRow where
  id : String
  userId : String
  status : String
  subtotal : ℚ
  discount : ℚ
  tax : ℚ
  shipping : ℚ
  total : ℚ
deriving DecidableEq, Repr

/-- One row of `order_items`. -/
structure OrderItemRow where
  id : String
  orderId : String
  productId : String
  qty : Int
  unitPrice : ℚ
deriving DecidableEq, Repr

/-- One row of `events` (the `ORDER_CREATED` audit record; the JSON payload's
fields are kept structured). -/
structure EventRow where
  userId : String
  etype : String
  orderId : String
  total : ℚ
  cartId : String
deriving DecidableEq, Repr

/-- The relational store. `cartItems` pairs each `cart_items` row with its
cart id, in table order; `couponUsage` maps `(user_id, coupon_code)` to
`used_count`; `inventory` maps `(product_id, warehouse_id)` to
`(available_qty, reserved_qty)`; `users` maps user id to region. -/
structure DB where
  carts : List CartRow
  cartItems : List (String × CartItemDB)
  coupons : List CouponDB
  couponUsage : List ((String × String) × Int)
  inventory : List ((String × String) × (Int × Int))
  orders : List OrderRow
  orderItems : List OrderItemRow
  events : List EventRow
  users : List (String × String)
deriving DecidableEq, Repr

/-- The cache/lock backend: the idempotency store (keyed by the full
`idem:checkout:…` key), the fixed-window counters with the expiry recorded
at first increment, and the set of user ids holding `lock:checkout:…`. -/
structure RedisState where
  idem : List (String × CheckoutResponse)
  rate : List ((String × Int) × Int)
  rateExpire : List ((String × Int) × Int)
  locks : List String
deriving DecidableEq, Repr

/-- The two backends together. -/
structure SysState where
  db : DB
  redis : RedisState
deriving DecidableEq, Repr

/-- The Redis commands `processCheckout` issues, in order. -/
inductive Eff where
  | idemGet (key : String)
  | idemPut (key : String) (resp : CheckoutResponse)
  | rlIncr (key : String × Int) (newCount : Int)
  | rlExpire (key : String × Int) (seconds : Int)
  | lockSet (user : String) (acquired : Bool)
  | lockDel (user : String)
  | postCommit (user orderId : String) (total : ℚ)
deriving DecidableEq, Repr

/-- Go's `int(x)` conversion of a nonnegative-or-negative float: truncation
toward zero. -/
def truncTowardZero (q : ℚ) : Int := q.num.tdiv q.den

/-- Go `computeTax`: `float64(int(amount*0.08*100)) / 100`. -/
def computeTax (amount : ℚ) : ℚ :=
  (truncTowardZero (amount * (8 / 100) * 100) : ℚ) / 100

/-- JavaScript's `Math.round`: nearest integer, ties toward `+∞`. -/
def jsMathRound (q : ℚ) : Int := (q + 1 / 2).num.fdiv (q + 1 / 2).den

/-- TypeScript `computeTax`: `Math.round(amount * 0.08 * 100) / 100`. -/
def computeTaxTS (amount : ℚ) : ℚ :=
  (jsMathRound (amount * (8 / 100) * 100) : ℚ) / 100

/-- Modelled from the spec: "tax = round(… × 0.08, 2 decimals)" — rounding
a value to the nearest 2-decimal amount (ties up), the reading under which
the spec's own example `round(49.50×0.08, 2) = 3.96` holds. -/
def specRound2 (q : ℚ) : ℚ := (jsMathRound (q * 100) : ℚ) / 100

/-- Shipping: free above 100, else `5.99 + 0.99·(itemCount − 1)` (`computeShipping`). -/
def computeShipping (subtotal : ℚ) (itemCount : Int) : ℚ :=
  if subtotal > 100 then 0 else 599 / 100 + (itemCount - 1) * (99 / 100)

/-- The `maxFloat` helper of the Go source. -/
def maxFloat (a b : ℚ) : ℚ := if a > b then a else b

/-- The `subtotal += float64(item.Qty) * item.UnitPrice` accumulation. -/
def cartSubtotal (items : List CartItemDB) : ℚ :=
  items.foldl (fun s i => s + (i.qty : ℚ) * i.unitPrice) 0

/-- The cart row selected by `WHERE id = $1 AND user_id = $2`. -/
def findCart (db : DB) (cartId userId : String) : Option CartRow :=
  db.carts.find? (fun c => c.id == cartId && c.userId == userId)

/-- The `cart_items` rows of one cart, in table order. -/
def loadCartItems (db : DB) (cartId : String) : List CartItemDB :=
  (db.cartItems.filter (fun r => r.1 == cartId)).map (fun r => r.2)

/-- The coupon row selected by `WHERE code = $1`. -/
def findCoupon (coupons : List CouponDB) (code : String) : Option CouponDB :=
  coupons.find? (fun c => c.code == code)

/-- The upsert `INSERT … VALUES($1,$2,1) ON CONFLICT DO UPDATE SET used_count = used_count + 1`. -/
def upsertUsage (k : String × String) (l : List ((String × String) × Int)) :
    List ((String × String) × Int) :=
  match alookup k l with
  | none => l ++ [(k, 1)]
  | some _ => amodify k (fun u => u + 1) l

/-- The two coupon writes of `processCoupon`: upsert the `(user, coupon)`
usage row and bump the coupon's `used_count`. -/
def redeemCoupon (db : DB) (userId couponCode : String) : DB :=
  { db with
    couponUsage := upsertUsage (userId, couponCode) db.couponUsage
    coupons := db.coupons.map (fun c =>
      if c.code == couponCode then { c with usedCount := c.usedCount + 1 } else c) }

/-- The cap check `coupon.MaxUses != nil && coupon.UsedCount >= *coupon.MaxUses`. -/
def couponAtCap (c : CouponDB) : Bool :=
  match c.maxUses with
  | some m => c.usedCount ≥ m
  | none => false

/-- Coupon step `processCoupon`: validity window and cap checks, the per-user usage
check, the two writes, and the discount. -/
def processCoupon (db : DB) (now : Int) (userId couponCode : String)
    (cartItems : List CartItemDB) : Except String (DB × ℚ) :=
  match findCoupon db.coupons couponCode with
  | none => .error "Invalid or expired coupon"
  | some coupon =>
    if now < coupon.startsAt ∨ coupon.endsAt < now then
      .error "Invalid or expired coupon"
    else if couponAtCap coupon then
      .error "Invalid or expired coupon"
    else
      match alookup (userId, couponCode) db.couponUsage with
      | some usedCount =>
        if usedCount ≥ 1 then .error "Coupon already used"
        else
          .ok (redeemCoupon db userId couponCode,
            if coupon.ctype == "percentage" then
              cartSubtotal cartItems * (coupon.value / 100)
            else coupon.value)
      | none =>
        .ok (redeemCoupon db userId couponCode,
          if coupon.ctype == "percentage" then
            cartSubtotal cartItems * (coupon.value / 100)
          else coupon.value)

/-- The static region → warehouse map of `NewCheckoutHandler`. -/
def warehouseByRegion : List (String × String) :=
  [("us-east", "11111111-1111-1111-1111-111111111111"),
   ("us-west", "22222222-2222-2222-2222-222222222222"),
   ("eu-west", "33333333-3333-3333-3333-333333333333"),
   ("ap-southeast", "44444444-4444-4444-4444-444444444444")]

/-- Warehouse resolution `getWarehouseForUser`: the user's region, defaulting to `us-east` both
when the user row is absent and when the region is unmapped. -/
def getWarehouseForUser (db : DB) (userId : String) : String :=
  (alookup ((alookup userId db.users).getD "us-east") warehouseByRegion).getD
    "11111111-1111-1111-1111-111111111111"

/-- Inventory step `reserveInventory`: one item at a time in cart-item order; each step
locks-and-reads the `(product, warehouse)` row, rejects when it is absent or
`available_qty − reserved_qty < qty`, and otherwise bumps `reserved_qty`. -/
def reserveInventory (inv : List ((String × String) × (Int × Int)))
    (cartItems : List CartItemDB) (warehouseId : String) :
    Except String (List ((String × String) × (Int × Int))) :=
  match cartItems with
  | [] => .ok inv
  | item :: rest =>
    match alookup (item.productId, warehouseId) inv with
    | none => .error "Insufficient inventory"
    | some (avail, reserved) =>
      if avail - reserved < item.qty then .error "Insufficient inventory"
      else
        reserveInventory
          (amodify (item.productId, warehouseId) (fun p => (p.1, p.2 + item.qty)) inv)
          rest warehouseId

/-- The `orders` row steps 3.5–3.6 build: the derived amounts of one
checkout (`gen 0` is the order's UUID). -/
def orderRowOf (gen : Nat → String) (req : CheckoutRequest)
    (cartItems : List CartItemDB) (discount : ℚ) : OrderRow :=
  { id := gen 0, userId := req.userId, status := "pending",
    subtotal := cartSubtotal cartItems, discount := discount,
    tax := computeTax (cartSubtotal cartItems - discount),
    shipping := computeShipping (cartSubtotal cartItems) (cartItems.length : Int),
    total := maxFloat 0 (cartSubtotal cartItems - discount +
      computeTax (cartSubtotal cartItems - discount) +
      computeShipping (cartSubtotal cartItems) (cartItems.length : Int)) }

/-- Steps 3.5–3.8 of `executeCheckoutTransaction`: the `orders` and
`order_items` inserts, the cart close, the audit event, and the response
(`gen (i+1)` is the i-th order item's UUID). -/
def finalizeOrder (db : DB) (gen : Nat → String) (req : CheckoutRequest)
    (cartItems : List CartItemDB) (discount : ℚ) : DB × CheckoutResponse :=
  ({ db with
      orders := db.orders ++ [orderRowOf gen req cartItems discount]
      orderItems := db.orderItems ++ cartItems.enum.map (fun p =>
        { id := gen (p.1 + 1), orderId := gen 0, productId := p.2.productId,
          qty := p.2.qty, unitPrice := p.2.unitPrice : OrderItemRow })
      carts := db.carts.map (fun c =>
        if c.id == req.cartId then { c with status := "closed" } else c)
      events := db.events ++
        [{ userId := req.userId, etype := "ORDER_CREATED", orderId := gen 0,
           total := (orderRowOf gen req cartItems discount).total,
           cartId := req.cartId }] },
   { orderId := gen 0, status := "pending",
     total := (orderRowOf gen req cartItems discount).total })

/-- Transaction body `executeCheckoutTransaction`. The returned `DB` is
the candidate post-commit state; an `error` result models the rollback of
every in-transaction write. -/
def executeCheckoutTransaction (db : DB) (now : Int) (gen : Nat → String)
    (req : CheckoutRequest) : Except String (DB × CheckoutResponse) :=
  match findCart db req.cartId req.userId with
  | none => .error "Cart not found or not open"
  | some cart =>
    if cart.status ≠ "open" then .error "Cart not found or not open"
    else if loadCartItems db req.cartId = [] then .error "Cart is empty"
    else
      match (if req.coupon ≠ "" then
               processCoupon db now req.userId req.coupon (loadCartItems db req.cartId)
             else .ok (db, 0)) with
      | .error e => .error e
      | .ok (db1, discount) =>
        match reserveInventory db1.inventory (loadCartItems db req.cartId)
            (getWarehouseForUser db1 req.userId) with
        | .error e => .error e
        | .ok inv1 =>
          .ok (finalizeOrder { db1 with inventory := inv1 } gen req
            (loadCartItems db req.cartId) discount)

/-- The full `idem:checkout:` key. -/
def idemKey (paymentRef : String) : String := "idem:checkout:" ++ paymentRef

/-- The limiter's `rl:user:{id}:checkout:{minute}` key: the user paired with
the wall-clock minute `time.Now().Unix() / 60`. -/
def rlKey (req : CheckoutRequest) (now : Int) : String × Int :=
  (req.userId, now / 60)

/-- The counter value `INCR` returns for this attempt. -/
def rlCount (st : SysState) (req : CheckoutRequest) (now : Int) : Int :=
  (alookup (rlKey req now) st.redis.rate).getD 0 + 1

/-- The Redis state after step 1 (the increment, plus the 90-second expiry
when this was the window's first increment). -/
def redisAfterRl (st : SysState) (req : CheckoutRequest) (now : Int) : RedisState :=
  if rlCount st req now = 1 then
    { st.redis with
      rate := astore (rlKey req now) (rlCount st req now) st.redis.rate
      rateExpire := astore (rlKey req now) 90 st.redis.rateExpire }
  else
    { st.redis with rate := astore (rlKey req now) (rlCount st req now) st.redis.rate }

/-- The trace of steps 0–1 on an idempotency miss. -/
def rlTrace (st : SysState) (req : CheckoutRequest) (now : Int) : List Eff :=
  [Eff.idemGet (idemKey req.paymentRef), Eff.rlIncr (rlKey req now) (rlCount st req now)] ++
  (if rlCount st req now = 1 then [Eff.rlExpire (rlKey req now) 90] else [])

/-- Orchestration `processCheckout`: idempotency check, fixed-window limiter, `SETNX`
lock, the transaction, the idempotency write-back, and the deferred lock
delete — with the trace of Redis commands it issued. -/
def processCheckout (st : SysState) (now : Int) (gen : Nat → String)
    (req : CheckoutRequest) : SysState × List Eff × Except String CheckoutResponse :=
  match alookup (idemKey req.paymentRef) st.redis.idem with
  | some resp => (st, [Eff.idemGet (idemKey req.paymentRef)], .ok resp)
  | none =>
    if 10 < rlCount st req now then
      ({ st with redis := redisAfterRl st req now }, rlTrace st req now,
       .error "Rate limit exceeded")
    else if req.userId ∈ st.redis.locks then
      ({ st with redis := redisAfterRl st req now },
       rlTrace st req now ++ [Eff.lockSet req.userId false],
       .error "Checkout in progress")
    else
      match executeCheckoutTransaction st.db now gen req with
      | .error e =>
        ({ st with redis := { redisAfterRl st req now with
             locks := (req.userId :: st.redis.locks).erase req.userId } },
         rlTrace st req now ++ [Eff.lockSet req.userId true, Eff.lockDel req.userId],
         .error e)
      | .ok (db1, resp) =>
        ({ db := db1
           redis := { redisAfterRl st req now with
             idem := astore (idemKey req.paymentRef) resp st.redis.idem
             locks := (req.userId :: st.redis.locks).erase req.userId } },
         rlTrace st req now ++
           [Eff.lockSet req.userId true,
            Eff.postCommit req.userId resp.orderId resp.total,
            Eff.idemPut (idemKey req.paymentRef) resp, Eff.lockDel req.userId],
         .ok resp)

/-- The Go handler's `err.Error()` → HTTP status switch. -/
def statusForError (e : String) : Int :=
  if e = "Rate limit exceeded" then 429
  else if e = "Checkout in progress" then 409
  else if e = "Cart not found or not open" ∨ e = "Cart is empty" ∨
          e = "Invalid or expired coupon" ∨ e = "Coupon already used" then 400
  else if e = "Insufficient inventory" then 409
  else 500

/-- The `statusMap` literal of `CheckoutController.checkout` (TypeScript). -/
def statusMapTS : List (String × Int) :=
  [("Rate limit exceeded", 429), ("Checkout in progress", 409),
   ("Cart not found or not open", 400), ("Cart is empty", 400),
   ("Invalid or expired coupon", 400), ("Coupon already used", 400),
   ("Insufficient inventory", 409)]

/-- TypeScript `statusMap[error.message] || HttpStatus.INTERNAL_SERVER_ERROR`. -/
def statusForErrorTS (e : String) : Int := (alookup e statusMapTS).getD 500

/-- The handler's reply: an HTTP status with either the success payload or
the error message. -/
structure HttpReply where
  status : Int
  body : Except String CheckoutResponse
deriving Repr

/-- The Go `Checkout` fiber handler: required-field and non-empty-items
validation, then `processCheckout` with the error-to-status mapping. -/
def Checkout (st : SysState) (now : Int) (gen : Nat → String)
    (req : CheckoutRequest) : SysState × List Eff × HttpReply :=
  if req.userId = "" ∨ req.cartId = "" ∨ req.paymentRef = "" then
    (st, [], { status := 400, body := .error "userId, cartId, and paymentRef are required" })
  else if req.items = [] then
    (st, [], { status := 400, body := .error "items are required" })
  else
    match processCheckout st now gen req with
    | (st', tr, .ok resp) => (st', tr, { status := 200, body := .ok resp })
    | (st', tr, .error e) => (st', tr, { status := statusForError e, body := .error e })

/-- The disjunction making `processCoupon` fail with the invalid message. -/
def couponInvalidCond (db : DB) (now : Int) (code : String) : Prop :=
  findCoupon db.coupons code = none ∨
  ∃ c, findCoupon db.coupons code = some c ∧
    (now < c.startsAt ∨ c.endsAt < now ∨ ∃ m, c.maxUses = some m ∧ m ≤ c.usedCount)

-- fixtures
def genK : Nat → String := fun _ => "oid"

def wh1 : String := "11111111-1111-1111-1111-111111111111"

def dbCX : DB :=
  { carts := [{ id := "c1", userId := "u1", status := "open" }]
    cartItems := [("c1", { productId := "p1", qty := 1, unitPrice := 4944 / 100, status := "active" })]
    coupons := []
    couponUsage := []
    inventory := [(("p1", wh1), (10, 0))]
    orders := [], orderItems := [], events := [], users := [] }

def reqCX : CheckoutRequest :=
  { userId := "u1", cartId := "c1", items := [{ productId := "p1", qty := 1 }],
    coupon := "", paymentRef := "pay3" }

def dbCXOut : DB :=
  { carts := [{ id := "c1", userId := "u1", status := "closed" }]
    cartItems := [("c1", { productId := "p1", qty := 1, unitPrice := 4944 / 100, status := "active" })]
    coupons := []
    couponUsage := []
    inventory := [(("p1", wh1), (10, 1))]
    orders := [{ id := "oid", userId := "u1", status := "pending", subtotal := 1236 / 25,
                 discount := 0, tax := 79 / 20, shipping := 599 / 100, total := 2969 / 50 }]
    orderItems := [{ id := "oid", orderId := "oid", productId := "p1", qty := 1,
                     unitPrice := 1236 / 25 }]
    events := [{ userId := "u1", etype := "ORDER_CREATED", orderId := "oid",
                 total := 2969 / 50, cartId := "c1" }]
    users := [] }

def respCX : CheckoutResponse := { orderId := "oid", status := "pending", total := 2969 / 50 }

-- scenario fixtures (spec §8 example cart with the 10% coupon)
def dbSc : DB :=
  { carts := [{ id := "c1", userId := "u1", status := "open" }]
    cartItems := [("c1", { productId := "p1", qty := 2, unitPrice := 20, status := "active" }),
                  ("c1", { productId := "p2", qty := 1, unitPrice := 15, status := "active" })]
    coupons := [{ code := "SAVE10", ctype := "percentage", value := 10, maxUses := some 100,
                  usedCount := 0, startsAt := 0, endsAt := 1000 }]
    couponUsage := []
    inventory := [(("p1", wh1), (10, 0)), (("p2", wh1), (10, 0))]
    orders := [], orderItems := [], events := [], users := [("u1", "us-east")] }

def reqSc : CheckoutRequest :=
  { userId := "u1", cartId := "c1",
    items := [{ productId := "p1", qty := 2 }, { productId := "p2", qty := 1 }],
    coupon := "SAVE10", paymentRef := "pay1" }

def stSc : SysState :=
  { db := dbSc, redis := { idem := [], rate := [], rateExpire := [], locks := [] } }

def ordSc : OrderRow :=
  { id := "oid", userId := "u1", status := "pending", subtotal := 55,
    discount := 11 / 2, tax := 99 / 25, shipping := 349 / 50, total := 1511 / 25 }

def respSc : CheckoutResponse := { orderId := "oid", status := "pending", total := 1511 / 25 }

def dbScOut : DB :=
  { carts := [{ id := "c1", userId := "u1", status := "closed" }]
    cartItems := [("c1", { productId := "p1", qty := 2, unitPrice := 20, status := "active" }),
                  ("c1", { productId := "p2", qty := 1, unitPrice := 15, status := "active" })]
    coupons := [{ code := "SAVE10", ctype := "percentage", value := 10, maxUses := some 100,
                  usedCount := 1, startsAt := 0, endsAt := 1000 }]
    couponUsage := [(("u1", "SAVE10"), 1)]
    inventory := [(("p1", wh1), (10, 2)), (("p2", wh1), (10, 1))]
    orders := [ordSc]
    orderItems := [{ id := "oid", orderId := "oid", productId := "p1", qty := 2, unitPrice := 20 },
                   { id := "oid", orderId := "oid", productId := "p2", qty := 1, unitPrice := 15 }]
    events := [{ userId := "u1", etype := "ORDER_CREATED", orderId := "oid",
                 total := 1511 / 25, cartId := "c1" }]
    users := [("u1", "us-east")] }

def stScOut : SysState :=
  { db := dbScOut,
    redis := { idem := [(idemKey "pay1", respSc)], rate := [(("u1", 8), 1)],
               rateExpire := [(("u1", 8), 90)], locks := [] } }

def trSc : List Eff :=
  [Eff.idemGet (idemKey "pay1"), Eff.rlIncr ("u1", 8) 1, Eff.rlExpire ("u1", 8) 90,
   Eff.lockSet "u1" true, Eff.postCommit "u1" "oid" (1511 / 25),
   Eff.idemPut (idemKey "pay1") respSc, Eff.lockDel "u1"]

def itemA : CartItemDB := { productId := "p1", qty := 2, unitPrice := 20, status := "active" }
def itemB : CartItemDB := { productId := "p2", qty := 1, unitPrice := 15, status := "active" }

def dbScR : DB :=
  { carts := [{ id := "c1", userId := "u1", status := "open" }]
    cartItems := [("c1", itemA), ("c1", itemB)]
    coupons := [{ code := "SAVE10", ctype := "percentage", value := 10, maxUses := some 100,
                  usedCount := 1, startsAt := 0, endsAt := 1000 }]
    couponUsage := [(("u1", "SAVE10"), 1)]
    inventory := [(("p1", wh1), (10, 0)), (("p2", wh1), (10, 0))]
    orders := [], orderItems := [], events := [], users := [("u1", "us-east")] }

def dbIns : DB :=
  { carts := [{ id := "c1", userId := "u1", status := "open" }]
    cartItems := [("c1", { productId := "p1", qty := 1, unitPrice := 20, status := "active" })]
    coupons := []
    couponUsage := []
    inventory := [(("p1", wh1), (5, 5))]
    orders := [], orderItems := [], events := [], users := [] }

def reqIns : CheckoutRequest :=
  { userId := "u1", cartId := "c1", items := [{ productId := "p1", qty := 1 }],
    coupon := "", paymentRef := "pay2" }

def stIns : SysState :=
  { db := dbIns, redis := { idem := [], rate := [], rateExpire := [], locks := [] } }

def stInsOut : SysState :=
  { db := dbIns,
    redis := { idem := [], rate := [(("u1", 8), 1)], rateExpire := [(("u1", 8), 90)],
               locks := [] } }

def trIns : List Eff :=
  [Eff.idemGet (idemKey "pay2"), Eff.rlIncr ("u1", 8) 1, Eff.rlExpire ("u1", 8) 90,
   Eff.lockSet "u1" true, Eff.lockDel "u1"]

def stRate : SysState :=
  { db := dbIns,
    redis := { idem := [], rate := [(("u1", 8), 10)], rateExpire := [(("u1", 8), 90)],
               locks := [] } }

def stRateOut : SysState :=
  { db := dbIns,
    redis := { idem := [], rate := [(("u1", 8), 11)], rateExpire := [(("u1", 8), 90)],
               locks := [] } }

def trRate : List Eff :=
  [Eff.idemGet (idemKey "pay2"), Eff.rlIncr ("u1", 8) 11]

def reqEmpty : CheckoutRequest :=
  { userId := "u1", cartId := "c1", items := [], coupon := "", paymentRef := "pay1" }

def stWit : SysState :=
  { db := dbSc,
    redis := { idem := [(idemKey "pay1", respSc)], rate := [], rateExpire := [], locks := [] } }

def invA : List ((String × String) × (Int × Int)) := [(("p1", "w"), (5, 2))]
def invB : List ((String × String) × (Int × Int)) := [(("p1", "w"), (5, 4))]
def itemC : CartItemDB := { productId := "p1", qty := 2, unitPrice := 10, status := "active" }

theorem alookup_astore_self {α β : Type} [DecidableEq α] (k : α) (v : β) (l : List (α × β)) :
    alookup k (astore k v l) = some v := by
  induction l with
  | nil => simp [alookup, astore]
  | cons h t ih =>
    obtain ⟨a, b⟩ := h
    by_cases hak : a = k
    · simp [alookup, astore, hak]
    · simp [alookup, astore, hak, ih]

theorem alookup_astore_ne {α β : Type} [DecidableEq α] {k k' : α} (v : β) (l : List (α × β))
    (h : k' ≠ k) : alookup k' (astore k v l) = alookup k' l := by
  induction l with
  | nil => simp [alookup, astore, Ne.symm h]
  | cons hd t ih =>
    obtain ⟨a, b⟩ := hd
    by_cases hak : a = k
    · subst hak
      simp [alookup, astore, Ne.symm h]
    · simp only [astore, if_neg hak, alookup]
      by_cases hak' : a = k'
      · simp [hak']
      · simp [hak', ih]

theorem alookup_amodify_self {α β : Type} [DecidableEq α] (k : α) (f : β → β) (l : List (α × β)) :
    alookup k (amodify k f l) = (alookup k l).map f := by
  induction l with
  | nil => simp [alookup, amodify]
  | cons hd t ih =>
    obtain ⟨a, b⟩ := hd
    by_cases hak : a = k
    · simp [alookup, amodify, hak]
    · simp [alookup, amodify, hak, ih]

theorem alookup_amodify_ne {α β : Type} [DecidableEq α] {k k' : α} (f : β → β) (l : List (α × β))
    (h : k' ≠ k) : alookup k' (amodify k f l) = alookup k' l := by
  induction l with
  | nil => simp [amodify]
  | cons hd t ih =>
    obtain ⟨a, b⟩ := hd
    by_cases hak : a = k
    · subst hak
      simp [alookup, amodify, Ne.symm h]
    · simp only [amodify, if_neg hak, alookup]
      by_cases hak' : a = k'
      · simp [hak']
      · simp [hak', ih]

theorem cartSubtotal_eq_sum (items : List CartItemDB) :
    cartSubtotal items = (items.map (fun i => (i.qty : ℚ) * i.unitPrice)).sum := by
  have h : ∀ (l : List CartItemDB) (a : ℚ),
      l.foldl (fun s i => s + (i.qty : ℚ) * i.unitPrice) a =
        a + (l.map (fun i => (i.qty : ℚ) * i.unitPrice)).sum := by
    intro l
    induction l with
    | nil => intro a; simp
    | cons hd t ih => intro a; simp [ih]; ring
  simpa [cartSubtotal] using h items 0

theorem reserveInventory_head_absent {inv : List ((String × String) × (Int × Int))}
    {i : CartItemDB} {wh : String} (t : List CartItemDB)
    (h : alookup (i.productId, wh) inv = none) :
    reserveInventory inv (i :: t) wh = .error "Insufficient inventory" := by
  simp [reserveInventory, h]

theorem reserveInventory_head_short {inv : List ((String × String) × (Int × Int))}
    {i : CartItemDB} {wh : String} {a r : Int} (t : List CartItemDB)
    (h : alookup (i.productId, wh) inv = some (a, r)) (hs : a - r < i.qty) :
    reserveInventory inv (i :: t) wh = .error "Insufficient inventory" := by
  simp [reserveInventory, h, hs]

theorem reserveInventory_head_step {inv : List ((String × String) × (Int × Int))}
    {i : CartItemDB} {wh : String} {a r : Int} (t : List CartItemDB)
    (h : alookup (i.productId, wh) inv = some (a, r)) (hs : ¬ a - r < i.qty) :
    reserveInventory inv (i :: t) wh =
      reserveInventory (amodify (i.productId, wh) (fun p => (p.1, p.2 + i.qty)) inv) t wh := by
  simp [reserveInventory, h, hs]

theorem reserveInventory_invariant (wh : String) :
    ∀ (items : List CartItemDB) (inv inv' : List ((String × String) × (Int × Int))),
    (∀ k a r, alookup k inv = some (a, r) → r ≤ a) →
    reserveInventory inv items wh = .ok inv' →
    ∀ k a r, alookup k inv' = some (a, r) → r ≤ a := by
  intro items
  induction items with
  | nil =>
    intro inv inv' hinv hok
    simp only [reserveInventory, Except.ok.injEq] at hok
    exact hok ▸ hinv
  | cons i t ih =>
    intro inv inv' hinv hok
    match hl : alookup (i.productId, wh) inv with
    | none => simp [reserveInventory_head_absent t hl] at hok
    | some (a0, r0) =>
      by_cases hs : a0 - r0 < i.qty
      · simp [reserveInventory_head_short t hl hs] at hok
      · rw [reserveInventory_head_step t hl hs] at hok
        refine ih _ inv' ?_ hok
        intro k a r hk
        by_cases hkk : k = (i.productId, wh)
        · subst hkk
          rw [alookup_amodify_self, hl] at hk
          simp [Prod.ext_iff] at hk
          obtain ⟨ha, hr⟩ := hk
          omega
        · rw [alookup_amodify_ne _ _ hkk] at hk
          exact hinv k a r hk

theorem reserveInventory_frame (wh : String) :
    ∀ (items : List CartItemDB) (inv inv' : List ((String × String) × (Int × Int))),
    (∀ i ∈ items, 1 ≤ i.qty) →
    reserveInventory inv items wh = .ok inv' →
    ∀ k q, alookup k inv = some q → ∃ r', alookup k inv' = some (q.1, r') ∧ q.2 ≤ r' := by
  intro items
  induction items with
  | nil =>
    intro inv inv' _ hok k q hq
    simp only [reserveInventory, Except.ok.injEq] at hok
    exact ⟨q.2, hok ▸ hq, le_refl _⟩
  | cons i t ih =>
    intro inv inv' hqty hok k q hq
    match hl : alookup (i.productId, wh) inv with
    | none => simp [reserveInventory_head_absent t hl] at hok
    | some (a0, r0) =>
      by_cases hs : a0 - r0 < i.qty
      · simp [reserveInventory_head_short t hl hs] at hok
      · rw [reserveInventory_head_step t hl hs] at hok
        have hqty1 : 1 ≤ i.qty := hqty i (by simp)
        have hqt : ∀ j ∈ t, 1 ≤ j.qty := fun j hj => hqty j (by simp [hj])
        by_cases hkk : k = (i.productId, wh)
        · subst hkk
          have hq0 : q = (a0, r0) := by
            rw [hl] at hq
            exact (Option.some_inj.mp hq).symm
          have h2 : alookup (i.productId, wh)
              (amodify (i.productId, wh) (fun p => (p.1, p.2 + i.qty)) inv) =
              some (a0, r0 + i.qty) := by
            rw [alookup_amodify_self, hl]; rfl
          obtain ⟨r', hr', hle⟩ := ih _ inv' hqt hok _ _ h2
          exact ⟨r', by simpa [hq0] using hr', by simp [hq0]; omega⟩
        · have h2 : alookup k (amodify (i.productId, wh) (fun p => (p.1, p.2 + i.qty)) inv) =
              some q := by rw [alookup_amodify_ne _ _ hkk]; exact hq
          exact ih _ inv' hqt hok _ _ h2

theorem couponAtCap_iff (c : CouponDB) :
    couponAtCap c = true ↔ ∃ m, c.maxUses = some m ∧ m ≤ c.usedCount := by
  cases h : c.maxUses with
  | none => simp [couponAtCap, h]
  | some m => simp [couponAtCap, h, ge_iff_le]

theorem processCoupon_invalid_iff (db : DB) (now : Int) (u code : String)
    (items : List CartItemDB) :
    processCoupon db now u code items = .error "Invalid or expired coupon" ↔
      couponInvalidCond db now code := by
  unfold processCoupon couponInvalidCond
  cases hf : findCoupon db.coupons code with
  | none => simp
  | some c =>
    simp only [hf]
    by_cases hw : now < c.startsAt ∨ c.endsAt < now
    · simp [hw]
      tauto
    · by_cases hcap : couponAtCap c
      · simp [hw, hcap]
        exact Or.inr (Or.inr ((couponAtCap_iff c).mp hcap))
      · have hconj : c.startsAt ≤ now ∧ now ≤ c.endsAt ∧
            ∀ x, c.maxUses = some x → c.usedCount < x := by
          push_neg at hw
          refine ⟨hw.1, hw.2, fun x hx => ?_⟩
          by_contra hcon
          exact hcap ((couponAtCap_iff c).mpr ⟨x, hx, by omega⟩)
        cases hu : alookup (u, code) db.couponUsage with
        | none =>
          simp [hw, hcap]
          exact hconj
        | some uc =>
          by_cases huc : uc ≥ 1
          · simp [hw, hcap, huc]
            exact hconj
          · simp [hw, hcap, huc]
            exact hconj

theorem alookup_append_of_none {α β : Type} [DecidableEq α] {k : α} {l : List (α × β)}
    (l' : List (α × β)) (h : alookup k l = none) :
    alookup k (l ++ l') = alookup k l' := by
  induction l with
  | nil => simp
  | cons hd t ih =>
    obtain ⟨a, b⟩ := hd
    by_cases hak : a = k
    · simp [alookup, hak] at h
    · simp only [alookup, if_neg hak] at h
      simpa [alookup, hak] using ih h

theorem upsertUsage_self (k : String × String) (l : List ((String × String) × Int)) :
    alookup k (upsertUsage k l) = some ((alookup k l).getD 0 + 1) := by
  unfold upsertUsage
  cases h : alookup k l with
  | none =>
    rw [alookup_append_of_none _ h]
    simp [alookup]
  | some u =>
    rw [alookup_amodify_self, h]
    rfl

theorem find?_map_pres {α : Type} (p : α → Bool) (f : α → α)
    (hp : ∀ a, p (f a) = p a) (l : List α) :
    (l.map f).find? p = (l.find? p).map f := by
  induction l with
  | nil => rfl
  | cons a t ih =>
    simp only [List.map_cons, List.find?_cons]
    rw [hp a]
    cases hpa : p a
    · simpa using ih
    · simp

theorem findCoupon_map_bump (l : List CouponDB) (code : String) :
    findCoupon (l.map (fun c =>
      if c.code == code then { c with usedCount := c.usedCount + 1 } else c)) code
      = (findCoupon l code).map (fun c =>
          if c.code == code then { c with usedCount := c.usedCount + 1 } else c) := by
  unfold findCoupon
  refine find?_map_pres _ _ ?_ l
  intro a
  by_cases ha : a.code == code
  · simp [ha]
  · simp [ha]

theorem processCoupon_used_iff (db : DB) (now : Int) (u code : String)
    (items : List CartItemDB) :
    processCoupon db now u code items = .error "Coupon already used" ↔
      (¬ couponInvalidCond db now code ∧
        ∃ uc, alookup (u, code) db.couponUsage = some uc ∧ 1 ≤ uc) := by
  unfold processCoupon
  cases hf : findCoupon db.coupons code with
  | none => simp [couponInvalidCond, hf]
  | some c =>
    by_cases hw : now < c.startsAt ∨ c.endsAt < now
    · simp only [if_pos hw]
      constructor
      · intro h; exact absurd h (by simp)
      · rintro ⟨hnc, -⟩
        exact absurd (Or.inr ⟨c, hf, by tauto⟩) hnc
    · by_cases hcap : couponAtCap c
      · simp only [if_neg hw, if_pos hcap]
        constructor
        · intro h; exact absurd h (by simp)
        · rintro ⟨hnc, -⟩
          exact absurd
            (Or.inr ⟨c, hf, Or.inr (Or.inr ((couponAtCap_iff c).mp hcap))⟩) hnc
      · have hnc : ¬ couponInvalidCond db now code := by
          rintro (h0 | ⟨c', hc', hd⟩)
          · rw [hf] at h0; exact absurd h0 (by simp)
          · rw [hf] at hc'
            cases Option.some_inj.mp hc'
            rcases hd with h | h | ⟨m, hm, hle⟩
            · exact hw (Or.inl h)
            · exact hw (Or.inr h)
            · exact hcap ((couponAtCap_iff _).mpr ⟨m, hm, hle⟩)
        simp only [if_neg hw, if_neg hcap]
        cases hu : alookup (u, code) db.couponUsage with
        | none => simp [hu]
        | some uc =>
          by_cases huc : uc ≥ 1
          · simp only [if_pos huc]
            constructor
            · intro _; exact ⟨hnc, uc, rfl, huc⟩
            · intro _; trivial
          · simp only [if_neg huc]
            constructor
            · intro hcontra; exact absurd hcontra (by simp)
            · rintro ⟨-, uc', hu', h1'⟩
              cases Option.some_inj.mp hu'
              exact absurd h1' huc

theorem processCoupon_ok (db : DB) (now : Int) (u code : String)
    (items : List CartItemDB) (db' : DB) (d : ℚ)
    (h : processCoupon db now u code items = .ok (db', d)) :
    ∃ c, findCoupon db.coupons code = some c ∧
      db' = redeemCoupon db u code ∧
      (∀ uc, alookup (u, code) db.couponUsage = some uc → uc < 1) ∧
      d = (if c.ctype == "percentage" then
             cartSubtotal items * (c.value / 100) else c.value) := by
  unfold processCoupon at h
  cases hf : findCoupon db.coupons code with
  | none => rw [hf] at h; exact absurd h (by simp)
  | some c =>
    simp only [hf] at h
    by_cases hw : now < c.startsAt ∨ c.endsAt < now
    · rw [if_pos hw] at h; exact absurd h (by simp)
    · rw [if_neg hw] at h
      by_cases hcap : couponAtCap c
      · rw [if_pos hcap] at h; exact absurd h (by simp)
      · rw [if_neg hcap] at h
        cases hu : alookup (u, code) db.couponUsage with
        | none =>
          simp only [hu] at h
          simp only [Except.ok.injEq, Prod.mk.injEq] at h
          refine ⟨c, rfl, h.1.symm, ?_, h.2.symm⟩
          intro uc huc
          exact absurd huc (by simp)
        | some uc =>
          simp only [hu] at h
          by_cases huc1 : uc ≥ 1
          · rw [if_pos huc1] at h; exact absurd h (by simp)
          · rw [if_neg huc1] at h
            simp only [Except.ok.injEq, Prod.mk.injEq] at h
            refine ⟨c, rfl, h.1.symm, ?_, h.2.symm⟩
            intro uc' huc'
            cases Option.some_inj.mp huc'
            omega

theorem processCoupon_error_messages (db : DB) (now : Int) (u code : String)
    (items : List CartItemDB) (e : String)
    (h : processCoupon db now u code items = .error e) :
    e = "Invalid or expired coupon" ∨ e = "Coupon already used" := by
  unfold processCoupon at h
  cases hf : findCoupon db.coupons code with
  | none =>
    rw [hf] at h
    simp only [Except.error.injEq] at h
    exact Or.inl h.symm
  | some c =>
    simp only [hf] at h
    by_cases hw : now < c.startsAt ∨ c.endsAt < now
    · rw [if_pos hw] at h
      simp only [Except.error.injEq] at h
      exact Or.inl h.symm
    · rw [if_neg hw] at h
      by_cases hcap : couponAtCap c
      · rw [if_pos hcap] at h
        simp only [Except.error.injEq] at h
        exact Or.inl h.symm
      · rw [if_neg hcap] at h
        cases hu : alookup (u, code) db.couponUsage with
        | none =>
          simp only [hu] at h
          exact absurd h (by simp)
        | some uc =>
          simp only [hu] at h
          by_cases huc : uc ≥ 1
          · rw [if_pos huc] at h
            simp only [Except.error.injEq] at h
            exact Or.inr h.symm
          · rw [if_neg huc] at h
            exact absurd h (by simp)

theorem reserveInventory_error_message (wh : String) :
    ∀ (items : List CartItemDB) (inv : List ((String × String) × (Int × Int))) (e : String),
    reserveInventory inv items wh = .error e → e = "Insufficient inventory" := by
  intro items
  induction items with
  | nil => intro inv e h; simp [reserveInventory] at h
  | cons i t ih =>
    intro inv e h
    match hl : alookup (i.productId, wh) inv with
    | none =>
      rw [reserveInventory_head_absent t hl] at h
      simp only [Except.error.injEq] at h
      exact h.symm
    | some (a0, r0) =>
      by_cases hs : a0 - r0 < i.qty
      · rw [reserveInventory_head_short t hl hs] at h
        simp only [Except.error.injEq] at h
        exact h.symm
      · rw [reserveInventory_head_step t hl hs] at h
        exact ih _ e h

theorem processCoupon_ok_frame (db : DB) (now : Int) (u code : String)
    (items : List CartItemDB) (db' : DB) (d : ℚ)
    (h : processCoupon db now u code items = .ok (db', d)) :
    db'.orders = db.orders ∧ db'.carts = db.carts ∧ db'.cartItems = db.cartItems ∧
    db'.inventory = db.inventory ∧ db'.events = db.events ∧
    db'.orderItems = db.orderItems ∧ db'.users = db.users := by
  obtain ⟨c, -, hdb, -, -⟩ := processCoupon_ok db now u code items db' d h
  subst hdb
  simp [redeemCoupon]

theorem tx_error_messages (db : DB) (now : Int) (gen : Nat → String)
    (req : CheckoutRequest) (e : String)
    (h : executeCheckoutTransaction db now gen req = .error e) :
    e = "Cart not found or not open" ∨ e = "Cart is empty" ∨
    e = "Invalid or expired coupon" ∨ e = "Coupon already used" ∨
    e = "Insufficient inventory" := by
  unfold executeCheckoutTransaction at h
  cases hc : findCart db req.cartId req.userId with
  | none =>
    rw [hc] at h
    simp only [Except.error.injEq] at h
    exact Or.inl h.symm
  | some cart =>
    simp only [hc] at h
    by_cases hst : cart.status ≠ "open"
    · rw [if_pos hst] at h
      simp only [Except.error.injEq] at h
      exact Or.inl h.symm
    · rw [if_neg hst] at h
      by_cases hemp : loadCartItems db req.cartId = []
      · rw [if_pos hemp] at h
        simp only [Except.error.injEq] at h
        exact Or.inr (Or.inl h.symm)
      · rw [if_neg hemp] at h
        cases hcp : (if req.coupon ≠ "" then
            processCoupon db now req.userId req.coupon (loadCartItems db req.cartId)
          else .ok (db, 0)) with
        | error e1 =>
          simp only [hcp] at h
          simp only [Except.error.injEq] at h
          subst h
          by_cases hcoup : req.coupon ≠ ""
          · rw [if_pos hcoup] at hcp
            rcases processCoupon_error_messages _ _ _ _ _ _ hcp with h1 | h1
            · exact Or.inr (Or.inr (Or.inl h1))
            · exact Or.inr (Or.inr (Or.inr (Or.inl h1)))
          · rw [if_neg hcoup] at hcp
            exact absurd hcp (by simp)
        | ok p =>
          obtain ⟨db1, discount⟩ := p
          simp only [hcp] at h
          cases hri : reserveInventory db1.inventory (loadCartItems db req.cartId)
              (getWarehouseForUser db1 req.userId) with
          | error e2 =>
            simp only [hri, Except.error.injEq] at h
            subst h
            exact Or.inr (Or.inr (Or.inr (Or.inr
              (reserveInventory_error_message _ _ _ _ hri))))
          | ok inv1 =>
            simp only [hri] at h
            exact absurd h (by simp)

theorem tx_ok_shape (db : DB) (now : Int) (gen : Nat → String)
    (req : CheckoutRequest) (out : DB × CheckoutResponse)
    (h : executeCheckoutTransaction db now gen req = .ok out) :
    ∃ db2 discount,
      db2.orders = db.orders ∧ db2.carts = db.carts ∧ db2.cartItems = db.cartItems ∧
      out = finalizeOrder db2 gen req (loadCartItems db req.cartId) discount := by
  unfold executeCheckoutTransaction at h
  cases hc : findCart db req.cartId req.userId with
  | none => rw [hc] at h; exact absurd h (by simp)
  | some cart =>
    simp only [hc] at h
    by_cases hst : cart.status ≠ "open"
    · rw [if_pos hst] at h; exact absurd h (by simp)
    · rw [if_neg hst] at h
      by_cases hemp : loadCartItems db req.cartId = []
      · rw [if_pos hemp] at h; exact absurd h (by simp)
      · rw [if_neg hemp] at h
        cases hcp : (if req.coupon ≠ "" then
            processCoupon db now req.userId req.coupon (loadCartItems db req.cartId)
          else .ok (db, 0)) with
        | error e1 => simp only [hcp] at h; exact absurd h (by simp)
        | ok p =>
          obtain ⟨db1, discount⟩ := p
          simp only [hcp] at h
          cases hri : reserveInventory db1.inventory (loadCartItems db req.cartId)
              (getWarehouseForUser db1 req.userId) with
          | error e2 => simp only [hri] at h; exact absurd h (by simp)
          | ok inv1 =>
            simp only [hri, Except.ok.injEq] at h
            have hfr : db1.orders = db.orders ∧ db1.carts = db.carts ∧
                db1.cartItems = db.cartItems := by
              by_cases hcoup : req.coupon ≠ ""
              · rw [if_pos hcoup] at hcp
                obtain ⟨h1, h2, h3, -⟩ := processCoupon_ok_frame _ _ _ _ _ _ _ hcp
                exact ⟨h1, h2, h3⟩
              · rw [if_neg hcoup] at hcp
                simp only [Except.ok.injEq, Prod.mk.injEq] at hcp
                rw [← hcp.1]
                exact ⟨rfl, rfl, rfl⟩
            refine ⟨{ db1 with inventory := inv1 }, discount, ?_, ?_, ?_, h.symm⟩
            · exact hfr.1
            · exact hfr.2.1
            · exact hfr.2.2

theorem processCheckout_idem_hit (st : SysState) (now : Int) (gen : Nat → String)
    (req : CheckoutRequest) (r : CheckoutResponse)
    (h : alookup (idemKey req.paymentRef) st.redis.idem = some r) :
    processCheckout st now gen req =
      (st, [Eff.idemGet (idemKey req.paymentRef)], .ok r) := by
  unfold processCheckout
  simp only [h]

theorem processCheckout_rl_reject (st : SysState) (now : Int) (gen : Nat → String)
    (req : CheckoutRequest)
    (hmiss : alookup (idemKey req.paymentRef) st.redis.idem = none)
    (hcnt : 10 < rlCount st req now) :
    processCheckout st now gen req =
      ({ st with redis := redisAfterRl st req now }, rlTrace st req now,
       .error "Rate limit exceeded") := by
  unfold processCheckout
  simp only [hmiss, if_pos hcnt]

theorem processCheckout_lock_denied (st : SysState) (now : Int) (gen : Nat → String)
    (req : CheckoutRequest)
    (hmiss : alookup (idemKey req.paymentRef) st.redis.idem = none)
    (hcnt : ¬ 10 < rlCount st req now)
    (hlock : req.userId ∈ st.redis.locks) :
    processCheckout st now gen req =
      ({ st with redis := redisAfterRl st req now },
       rlTrace st req now ++ [Eff.lockSet req.userId false],
       .error "Checkout in progress") := by
  unfold processCheckout
  simp only [hmiss, if_neg hcnt, if_pos hlock]

theorem processCheckout_tx_error (st : SysState) (now : Int) (gen : Nat → String)
    (req : CheckoutRequest) (e : String)
    (hmiss : alookup (idemKey req.paymentRef) st.redis.idem = none)
    (hcnt : ¬ 10 < rlCount st req now)
    (hlock : req.userId ∉ st.redis.locks)
    (htx : executeCheckoutTransaction st.db now gen req = .error e) :
    processCheckout st now gen req =
      ({ st with redis := { redisAfterRl st req now with
           locks := (req.userId :: st.redis.locks).erase req.userId } },
       rlTrace st req now ++ [Eff.lockSet req.userId true, Eff.lockDel req.userId],
       .error e) := by
  unfold processCheckout
  simp only [hmiss, if_neg hcnt, if_neg hlock, htx]

theorem processCheckout_tx_ok (st : SysState) (now : Int) (gen : Nat → String)
    (req : CheckoutRequest) (db1 : DB) (resp : CheckoutResponse)
    (hmiss : alookup (idemKey req.paymentRef) st.redis.idem = none)
    (hcnt : ¬ 10 < rlCount st req now)
    (hlock : req.userId ∉ st.redis.locks)
    (htx : executeCheckoutTransaction st.db now gen req = .ok (db1, resp)) :
    processCheckout st now gen req =
      ({ db := db1
         redis := { redisAfterRl st req now with
           idem := astore (idemKey req.paymentRef) resp st.redis.idem
           locks := (req.userId :: st.redis.locks).erase req.userId } },
       rlTrace st req now ++
         [Eff.lockSet req.userId true,
          Eff.postCommit req.userId resp.orderId resp.total,
          Eff.idemPut (idemKey req.paymentRef) resp, Eff.lockDel req.userId],
       .ok resp) := by
  unfold processCheckout
  simp only [hmiss, if_neg hcnt, if_neg hlock, htx]

theorem redisAfterRl_idem (st : SysState) (req : CheckoutRequest) (now : Int) :
    (redisAfterRl st req now).idem = st.redis.idem := by
  unfold redisAfterRl
  split <;> rfl

theorem redisAfterRl_locks (st : SysState) (req : CheckoutRequest) (now : Int) :
    (redisAfterRl st req now).locks = st.redis.locks := by
  unfold redisAfterRl
  split <;> rfl

theorem redisAfterRl_rate (st : SysState) (req : CheckoutRequest) (now : Int) :
    alookup (rlKey req now) (redisAfterRl st req now).rate = some (rlCount st req now) := by
  unfold redisAfterRl
  split <;> exact alookup_astore_self _ _ _

theorem redisAfterRl_expiry (st : SysState) (req : CheckoutRequest) (now : Int)
    (h : rlCount st req now = 1) :
    alookup (rlKey req now) (redisAfterRl st req now).rateExpire = some 90 := by
  unfold redisAfterRl
  rw [if_pos h]
  exact alookup_astore_self _ _ _

theorem erase_cons_self (u : String) (l : List String) : (u :: l).erase u = l := by
  simp [List.erase_cons_head]

theorem processCheckout_cases (st : SysState) (now : Int) (gen : Nat → String)
    (req : CheckoutRequest) (st' : SysState) (tr : List Eff)
    (res : Except String CheckoutResponse)
    (h : processCheckout st now gen req = (st', tr, res)) :
    (∃ r, alookup (idemKey req.paymentRef) st.redis.idem = some r ∧
      st' = st ∧ tr = [Eff.idemGet (idemKey req.paymentRef)] ∧ res = .ok r) ∨
    (alookup (idemKey req.paymentRef) st.redis.idem = none ∧
      10 < rlCount st req now ∧
      st' = { st with redis := redisAfterRl st req now } ∧
      tr = rlTrace st req now ∧ res = .error "Rate limit exceeded") ∨
    (alookup (idemKey req.paymentRef) st.redis.idem = none ∧
      ¬ 10 < rlCount st req now ∧ req.userId ∈ st.redis.locks ∧
      st' = { st with redis := redisAfterRl st req now } ∧
      tr = rlTrace st req now ++ [Eff.lockSet req.userId false] ∧
      res = .error "Checkout in progress") ∨
    (∃ e, alookup (idemKey req.paymentRef) st.redis.idem = none ∧
      ¬ 10 < rlCount st req now ∧ req.userId ∉ st.redis.locks ∧
      executeCheckoutTransaction st.db now gen req = .error e ∧
      st' = { st with redis := { redisAfterRl st req now with
        locks := (req.userId :: st.redis.locks).erase req.userId } } ∧
      tr = rlTrace st req now ++ [Eff.lockSet req.userId true, Eff.lockDel req.userId] ∧
      res = .error e) ∨
    (∃ db1 resp, alookup (idemKey req.paymentRef) st.redis.idem = none ∧
      ¬ 10 < rlCount st req now ∧ req.userId ∉ st.redis.locks ∧
      executeCheckoutTransaction st.db now gen req = .ok (db1, resp) ∧
      st' = { db := db1
              redis := { redisAfterRl st req now with
                idem := astore (idemKey req.paymentRef) resp st.redis.idem
                locks := (req.userId :: st.redis.locks).erase req.userId } } ∧
      tr = rlTrace st req now ++
        [Eff.lockSet req.userId true,
         Eff.postCommit req.userId resp.orderId resp.total,
         Eff.idemPut (idemKey req.paymentRef) resp, Eff.lockDel req.userId] ∧
      res = .ok resp) := by
  cases hid : alookup (idemKey req.paymentRef) st.redis.idem with
  | some r =>
    rw [processCheckout_idem_hit st now gen req r hid] at h
    simp only [Prod.mk.injEq] at h
    exact Or.inl ⟨r, rfl, h.1.symm, h.2.1.symm, h.2.2.symm⟩
  | none =>
    by_cases hcnt : 10 < rlCount st req now
    · rw [processCheckout_rl_reject st now gen req hid hcnt] at h
      simp only [Prod.mk.injEq] at h
      exact Or.inr (Or.inl ⟨rfl, hcnt, h.1.symm, h.2.1.symm, h.2.2.symm⟩)
    · by_cases hlock : req.userId ∈ st.redis.locks
      · rw [processCheckout_lock_denied st now gen req hid hcnt hlock] at h
        simp only [Prod.mk.injEq] at h
        exact Or.inr (Or.inr (Or.inl ⟨rfl, hcnt, hlock, h.1.symm, h.2.1.symm, h.2.2.symm⟩))
      · cases htx : executeCheckoutTransaction st.db now gen req with
        | error e =>
          rw [processCheckout_tx_error st now gen req e hid hcnt hlock htx] at h
          simp only [Prod.mk.injEq] at h
          exact Or.inr (Or.inr (Or.inr (Or.inl
            ⟨e, rfl, hcnt, hlock, rfl, h.1.symm, h.2.1.symm, h.2.2.symm⟩)))
        | ok p =>
          obtain ⟨db1, resp⟩ := p
          rw [processCheckout_tx_ok st now gen req db1 resp hid hcnt hlock htx] at h
          simp only [Prod.mk.injEq] at h
          exact Or.inr (Or.inr (Or.inr (Or.inr
            ⟨db1, resp, rfl, hcnt, hlock, rfl, h.1.symm, h.2.1.symm, h.2.2.symm⟩)))

theorem maxFloat_eq_max (a b : ℚ) : maxFloat a b = max a b := by
  unfold maxFloat
  rcases le_or_lt a b with hab | hab
  · rw [if_neg (not_lt.mpr hab), max_eq_right hab]
  · rw [if_pos hab, max_eq_left hab.le]

/-- C1: on every successful checkout the created order row carries
subtotal = Σ qty × unit_price over the cart items loaded from the database,
shipping per the free-above-100 / 5.99 + 0.99·(itemCount − 1) rule, and
total = max(0, subtotal − discount + tax + shipping); the response repeats
the row's total, id and status. -/
theorem checkout_amounts_consistent (db : DB) (now : Int) (gen : Nat → String)
    (req : CheckoutRequest) (db' : DB) (resp : CheckoutResponse)
    (h : executeCheckoutTransaction db now gen req = .ok (db', resp)) :
    ∃ o : OrderRow, db'.orders = db.orders ++ [o] ∧
      o.subtotal = ((loadCartItems db req.cartId).map (fun i => (i.qty : ℚ) * i.unitPrice)).sum ∧
      o.shipping = (if o.subtotal > 100 then 0
        else 599 / 100 + (((loadCartItems db req.cartId).length : ℚ) - 1) * (99 / 100)) ∧
      o.total = max 0 (o.subtotal - o.discount + o.tax + o.shipping) ∧
      resp.orderId = o.id ∧ resp.status = "pending" ∧ o.status = "pending" ∧
      resp.total = o.total := by
  obtain ⟨db2, discount, ho, hc, hci, hout⟩ := tx_ok_shape db now gen req (db', resp) h
  simp only [finalizeOrder, Prod.mk.injEq] at hout
  obtain ⟨hdb', hresp⟩ := hout
  refine ⟨orderRowOf gen req (loadCartItems db req.cartId) discount, ?_, ?_, ?_, ?_, ?_, ?_, ?_, ?_⟩
  · rw [hdb']; simp [ho]
  · simp [orderRowOf, cartSubtotal_eq_sum]
  · simp only [orderRowOf, computeShipping]
    push_cast
    rfl
  · simp only [orderRowOf, maxFloat_eq_max]
  · simp [hresp, orderRowOf]
  · simp [hresp]
  · rfl
  · simp [hresp, orderRowOf]

/-- C2 (amended): every successful checkout prices tax exactly once, from the
un-floored base `subtotal − discount` — but the Go backend truncates the
2-decimal value toward zero (`int()`), it does not round to nearest; the
TypeScript backend rounds (`Math.round`). The total is not re-rounded. For
the 10%-coupon scenario (base 49.50) both backends give tax 3.96. -/
theorem checkout_tax_truncation (db : DB) (now : Int) (gen : Nat → String)
    (req : CheckoutRequest) (db' : DB) (resp : CheckoutResponse)
    (h : executeCheckoutTransaction db now gen req = .ok (db', resp)) :
    (∃ o : OrderRow, db'.orders = db.orders ++ [o] ∧
      o.tax = (truncTowardZero ((o.subtotal - o.discount) * (8 / 100) * 100) : ℚ) / 100 ∧
      o.total = max 0 (o.subtotal - o.discount + o.tax + o.shipping)) ∧
    computeTax ((55 : ℚ) - 11 / 2) = 99 / 25 ∧
    computeTaxTS ((55 : ℚ) - 11 / 2) = 99 / 25 := by
  refine ⟨?_, ?_, ?_⟩
  · obtain ⟨db2, discount, ho, hc, hci, hout⟩ := tx_ok_shape db now gen req (db', resp) h
    simp only [finalizeOrder, Prod.mk.injEq] at hout
    obtain ⟨hdb', hresp⟩ := hout
    refine ⟨orderRowOf gen req (loadCartItems db req.cartId) discount, ?_, ?_, ?_⟩
    · rw [hdb']; simp [ho]
    · simp [orderRowOf, computeTax]
    · simp only [orderRowOf, maxFloat_eq_max]
  · norm_num [computeTax, truncTowardZero, Int.tdiv]
  · norm_num [computeTaxTS, jsMathRound, Int.fdiv]

theorem evalCXTx : executeCheckoutTransaction dbCX 0 genK reqCX = .ok (dbCXOut, respCX) := by
  norm_num [executeCheckoutTransaction, findCart, loadCartItems, processCoupon, findCoupon,
    couponAtCap, redeemCoupon, upsertUsage, getWarehouseForUser, warehouseByRegion,
    reserveInventory, finalizeOrder, orderRowOf, cartSubtotal, computeTax, computeShipping,
    maxFloat, truncTowardZero, alookup, astore, amodify, Int.tdiv, List.enum, List.enumFrom,
    dbCX, reqCX, dbCXOut, respCX, genK, wh1]

/-- C2 counterexample: a concrete checkout with subtotal 49.44 and no coupon.
The Go engine stores tax 3.95 (truncation of 3.9552), while the claimed
`round((subtotal − discount) × 0.08, 2)` is 3.96. -/
theorem checkout_tax_not_rounded_cex :
    ∃ d r, executeCheckoutTransaction dbCX 0 genK reqCX = .ok (d, r) ∧
      d.orders.map OrderRow.tax = [79 / 20] ∧
      d.orders.map (fun o => o.subtotal - o.discount) = [4944 / 100] ∧
      specRound2 ((4944 / 100 : ℚ) * (8 / 100)) = 99 / 25 ∧
      (79 / 20 : ℚ) ≠ 99 / 25 := by
  refine ⟨dbCXOut, respCX, evalCXTx, by norm_num [dbCXOut], by norm_num [dbCXOut], ?_, by norm_num⟩
  norm_num [specRound2, jsMathRound, Int.fdiv]

/-- C3: when the idempotency store holds a result for the request's
`paymentRef`, `processCheckout` returns that stored result verbatim, leaves
the whole state unchanged, and its trace is the single idempotency `GET` —
the rate limiter, the lock and the transaction are bypassed. Consequently a
second call with the same `paymentRef` after any successful call returns the
identical response and changes nothing, so exactly one order is created. -/
theorem checkout_idempotent_replay :
    (∀ (st : SysState) (now : Int) (gen : Nat → String) (req : CheckoutRequest)
       (r : CheckoutResponse),
      alookup (idemKey req.paymentRef) st.redis.idem = some r →
      processCheckout st now gen req =
        (st, [Eff.idemGet (idemKey req.paymentRef)], .ok r)) ∧
    (∀ (st : SysState) (now : Int) (gen : Nat → String) (req : CheckoutRequest)
       (st1 : SysState) (tr1 : List Eff) (r : CheckoutResponse) (now2 : Int)
       (gen2 : Nat → String),
      processCheckout st now gen req = (st1, tr1, .ok r) →
      processCheckout st1 now2 gen2 req =
        (st1, [Eff.idemGet (idemKey req.paymentRef)], .ok r)) := by
  constructor
  · exact processCheckout_idem_hit
  · intro st now gen req st1 tr1 r now2 gen2 h
    have hlk : alookup (idemKey req.paymentRef) st1.redis.idem = some r := by
      rcases processCheckout_cases st now gen req st1 tr1 (.ok r) h with
        ⟨r0, hid, hst, -, hres⟩ | ⟨-, -, -, -, hres⟩ | ⟨-, -, -, -, -, hres⟩ |
        ⟨e, -, -, -, -, -, -, hres⟩ | ⟨db1, resp, -, -, -, -, hst, -, hres⟩
      · rw [hst]
        rw [hid]
        simp only [Except.ok.injEq] at hres
        rw [hres]
      · exact absurd hres (by simp)
      · exact absurd hres (by simp)
      · exact absurd hres (by simp)
      · rw [hst]
        simp only [Except.ok.injEq] at hres
        rw [← hres]
        exact alookup_astore_self _ _ _
    exact processCheckout_idem_hit st1 now2 gen2 req r hlk

/-- C4: whenever `processCheckout` fails — with any error — the database is
exactly as before: no order or order-item row, the carts (hence the open
status), coupons, coupon usage, inventory and events are untouched, and the
idempotency store is unchanged. -/
theorem checkout_error_rollback (st : SysState) (now : Int) (gen : Nat → String)
    (req : CheckoutRequest) (st' : SysState) (tr : List Eff) (e : String)
    (h : processCheckout st now gen req = (st', tr, .error e)) :
    st'.db = st.db ∧ st'.redis.idem = st.redis.idem ∧
    st'.db.orders = st.db.orders ∧ st'.db.orderItems = st.db.orderItems ∧
    st'.db.carts = st.db.carts ∧ st'.db.coupons = st.db.coupons ∧
    st'.db.couponUsage = st.db.couponUsage ∧ st'.db.inventory = st.db.inventory ∧
    st'.db.events = st.db.events := by
  have hdb : st'.db = st.db ∧ st'.redis.idem = st.redis.idem := by
    rcases processCheckout_cases st now gen req st' tr (.error e) h with
      ⟨r0, -, -, -, hres⟩ | ⟨-, -, hst, -, -⟩ | ⟨-, -, -, hst, -, -⟩ |
      ⟨e1, -, -, -, -, hst, -, -⟩ | ⟨db1, resp, -, -, -, -, -, -, hres⟩
    · exact absurd hres (by simp)
    · rw [hst]
      exact ⟨rfl, redisAfterRl_idem st req now⟩
    · rw [hst]
      exact ⟨rfl, redisAfterRl_idem st req now⟩
    · rw [hst]
      exact ⟨rfl, redisAfterRl_idem st req now⟩
    · exact absurd hres (by simp)
  refine ⟨hdb.1, hdb.2, ?_, ?_, ?_, ?_, ?_, ?_, ?_⟩ <;> rw [hdb.1]

/-- C5: with a coupon code supplied, the coupon step fails `CouponInvalid`
iff the row is missing, now lies outside `[starts_at, ends_at]`, or
`max_uses` is set and `used_count` has reached it; otherwise it fails
`CouponAlreadyUsed` iff a `(user, coupon)` usage row with `used_count ≥ 1`
exists; otherwise (given stored usage counts are nonnegative) the usage row
is upserted to 1, the coupon's `used_count` is incremented by exactly 1, and
the discount is `subtotal × value/100` for a percentage coupon and the flat
value otherwise. -/
theorem coupon_validation_and_redemption (db : DB) (now : Int) (u code : String)
    (items : List CartItemDB) :
    (processCoupon db now u code items = .error "Invalid or expired coupon" ↔
      findCoupon db.coupons code = none ∨
      ∃ c, findCoupon db.coupons code = some c ∧
        (now < c.startsAt ∨ c.endsAt < now ∨
         ∃ m, c.maxUses = some m ∧ m ≤ c.usedCount)) ∧
    (processCoupon db now u code items = .error "Coupon already used" ↔
      (¬ couponInvalidCond db now code ∧
        ∃ uc, alookup (u, code) db.couponUsage = some uc ∧ 1 ≤ uc)) ∧
    (∀ (db' : DB) (d : ℚ), processCoupon db now u code items = .ok (db', d) →
      (∀ uc, alookup (u, code) db.couponUsage = some uc → 0 ≤ uc) →
      alookup (u, code) db'.couponUsage = some 1 ∧
      ∃ c, findCoupon db.coupons code = some c ∧
        findCoupon db'.coupons code = some { c with usedCount := c.usedCount + 1 } ∧
        d = (if c.ctype == "percentage" then
               cartSubtotal items * (c.value / 100) else c.value)) := by
  refine ⟨processCoupon_invalid_iff db now u code items,
          processCoupon_used_iff db now u code items, ?_⟩
  intro db' d hok hnn
  obtain ⟨c, hf, hdb', hlt, hd⟩ := processCoupon_ok db now u code items db' d hok
  subst hdb'
  constructor
  · show alookup (u, code) (upsertUsage (u, code) db.couponUsage) = some 1
    rw [upsertUsage_self]
    cases hu : alookup (u, code) db.couponUsage with
    | none => rfl
    | some uc =>
      have h1 : uc < 1 := hlt uc hu
      have h2 : 0 ≤ uc := hnn uc hu
      have : uc = 0 := by omega
      simp [this]
  · refine ⟨c, hf, ?_, hd⟩
    show findCoupon (db.coupons.map _) code = _
    rw [findCoupon_map_bump, hf]
    have hf' : db.coupons.find? (fun c => c.code == code) = some c := hf
    have hcode : (c.code == code) = true := by
      have h0 := List.find?_some hf'
      exact h0
    simp only [Option.map_some']
    rw [if_pos hcode]

/-- C6: inventory reservation walks cart items in order; a step fails
`InsufficientInventory` iff the `(product, warehouse)` row is absent or
`available_qty − reserved_qty < qty`, and otherwise only bumps
`reserved_qty` by `qty`; hence, from any state satisfying
`reserved_qty ≤ available_qty` with all quantities ≥ 1, a successful
reservation preserves the invariant, never changes `available_qty`, and
never decreases `reserved_qty`. -/
theorem inventory_reservation_rules :
    (∀ (inv : List ((String × String) × (Int × Int))) (i : CartItemDB)
       (t : List CartItemDB) (wh : String),
      alookup (i.productId, wh) inv = none →
      reserveInventory inv (i :: t) wh = .error "Insufficient inventory") ∧
    (∀ (inv : List ((String × String) × (Int × Int))) (i : CartItemDB)
       (t : List CartItemDB) (wh : String) (a r : Int),
      alookup (i.productId, wh) inv = some (a, r) → a - r < i.qty →
      reserveInventory inv (i :: t) wh = .error "Insufficient inventory") ∧
    (∀ (inv : List ((String × String) × (Int × Int))) (i : CartItemDB)
       (t : List CartItemDB) (wh : String) (a r : Int),
      alookup (i.productId, wh) inv = some (a, r) → ¬ a - r < i.qty →
      reserveInventory inv (i :: t) wh =
        reserveInventory
          (amodify (i.productId, wh) (fun p => (p.1, p.2 + i.qty)) inv) t wh) ∧
    (∀ (wh : String) (items : List CartItemDB)
       (inv inv' : List ((String × String) × (Int × Int))),
      (∀ k a r, alookup k inv = some (a, r) → r ≤ a) →
      (∀ i ∈ items, 1 ≤ i.qty) →
      reserveInventory inv items wh = .ok inv' →
      (∀ k a r, alookup k inv' = some (a, r) → r ≤ a) ∧
      (∀ k q, alookup k inv = some q →
        ∃ r', alookup k inv' = some (q.1, r') ∧ q.2 ≤ r')) := by
  refine ⟨?_, ?_, ?_, ?_⟩
  · intro inv i t wh hl
    exact reserveInventory_head_absent t hl
  · intro inv i t wh a r hl hs
    exact reserveInventory_head_short t hl hs
  · intro inv i t wh a r hl hs
    exact reserveInventory_head_step t hl hs
  · intro wh items inv inv' hinv hq hok
    exact ⟨reserveInventory_invariant wh items inv inv' hinv hok,
           reserveInventory_frame wh items inv inv' hq hok⟩

/-- C7: every non-idempotent-hit attempt increments the user's
per-wall-clock-minute counter regardless of the outcome (so a rejected
attempt's increment is not rolled back); the attempt is rejected with the
rate-limit error iff the counter after increment exceeds 10; and the first
increment of a window records the 90-second expiry. -/
theorem rate_limiter_window (st : SysState) (now : Int) (gen : Nat → String)
    (req : CheckoutRequest) (st' : SysState) (tr : List Eff)
    (res : Except String CheckoutResponse)
    (hmiss : alookup (idemKey req.paymentRef) st.redis.idem = none)
    (h : processCheckout st now gen req = (st', tr, res)) :
    alookup (rlKey req now) st'.redis.rate =
      some ((alookup (rlKey req now) st.redis.rate).getD 0 + 1) ∧
    (res = .error "Rate limit exceeded" ↔
      10 < (alookup (rlKey req now) st.redis.rate).getD 0 + 1) ∧
    ((alookup (rlKey req now) st.redis.rate).getD 0 + 1 = 1 →
      alookup (rlKey req now) st'.redis.rateExpire = some 90) := by
  have hrc : rlCount st req now = (alookup (rlKey req now) st.redis.rate).getD 0 + 1 := rfl
  rcases processCheckout_cases st now gen req st' tr res h with
    ⟨r0, hid, -, -, -⟩ | ⟨-, hcnt, hst, -, hres⟩ | ⟨-, hcnt, -, hst, -, hres⟩ |
    ⟨e1, -, hcnt, -, htx, hst, -, hres⟩ | ⟨db1, resp, -, hcnt, -, -, hst, -, hres⟩
  · rw [hid] at hmiss; exact absurd hmiss (by simp)
  · subst hst hres
    refine ⟨by rw [← hrc]; exact redisAfterRl_rate st req now, ?_, ?_⟩
    · constructor
      · intro _; rw [← hrc]; exact hcnt
      · intro _; rfl
    · intro h1
      rw [← hrc] at h1
      exact redisAfterRl_expiry st req now h1
  · subst hst hres
    refine ⟨by rw [← hrc]; exact redisAfterRl_rate st req now, ?_, ?_⟩
    · constructor
      · intro hh; exact absurd hh (by simp)
      · intro hh; rw [← hrc] at hh; exact absurd hh hcnt
    · intro h1
      rw [← hrc] at h1
      exact redisAfterRl_expiry st req now h1
  · subst hst hres
    refine ⟨by rw [← hrc]; exact redisAfterRl_rate st req now, ?_, ?_⟩
    · constructor
      · intro hh
        simp only [Except.error.injEq] at hh
        rcases tx_error_messages st.db now gen req e1 htx with h1 | h1 | h1 | h1 | h1 <;>
          rw [h1] at hh <;> exact absurd hh (by decide)
      · intro hh; rw [← hrc] at hh; exact absurd hh hcnt
    · intro h1
      rw [← hrc] at h1
      exact redisAfterRl_expiry st req now h1
  · subst hst hres
    refine ⟨by rw [← hrc]; exact redisAfterRl_rate st req now, ?_, ?_⟩
    · constructor
      · intro hh; exact absurd hh (by simp)
      · intro hh; rw [← hrc] at hh; exact absurd hh hcnt
    · intro h1
      rw [← hrc] at h1
      exact redisAfterRl_expiry st req now h1

theorem lockSet_not_mem_rlTrace (st : SysState) (req : CheckoutRequest) (now : Int)
    (u : String) (b : Bool) : Eff.lockSet u b ∉ rlTrace st req now := by
  unfold rlTrace
  split <;> simp

theorem idemPut_not_mem_rlTrace (st : SysState) (req : CheckoutRequest) (now : Int)
    (kk : String) (rr : CheckoutResponse) : Eff.idemPut kk rr ∉ rlTrace st req now := by
  unfold rlTrace
  split <;> simp

/-- C8: the lock set is restored on every exit of `processCheckout`, and
whenever the lock was acquired the trace ends with the lock delete; the
idempotency store is written only on the success path — on failure it is
unchanged and no idempotency `SET` appears in the trace — and on a success
that ran the transaction the idempotency write immediately precedes the
lock release in the trace. -/
theorem lock_release_and_idem_write_order (st : SysState) (now : Int)
    (gen : Nat → String) (req : CheckoutRequest) (st' : SysState) (tr : List Eff)
    (res : Except String CheckoutResponse)
    (h : processCheckout st now gen req = (st', tr, res)) :
    st'.redis.locks = st.redis.locks ∧
    (Eff.lockSet req.userId true ∈ tr → ∃ l, tr = l ++ [Eff.lockDel req.userId]) ∧
    (∀ e, res = .error e → st'.redis.idem = st.redis.idem ∧
      ∀ kk rr, Eff.idemPut kk rr ∉ tr) ∧
    (∀ r, res = .ok r → Eff.lockSet req.userId true ∈ tr →
      ∃ l, tr = l ++ [Eff.idemPut (idemKey req.paymentRef) r,
                      Eff.lockDel req.userId]) := by
  rcases processCheckout_cases st now gen req st' tr res h with
    ⟨r0, hid, hst, htr, hres⟩ | ⟨-, -, hst, htr, hres⟩ | ⟨-, -, -, hst, htr, hres⟩ |
    ⟨e1, -, -, -, htx, hst, htr, hres⟩ | ⟨db1, resp, -, -, -, htx, hst, htr, hres⟩
  · subst hst htr hres
    refine ⟨rfl, ?_, ?_, ?_⟩
    · intro hmem; simp at hmem
    · intro e he; exact absurd he (by simp)
    · intro r hr hmem; simp at hmem
  · subst hst htr hres
    refine ⟨redisAfterRl_locks st req now, ?_, ?_, ?_⟩
    · intro hmem; exact absurd hmem (lockSet_not_mem_rlTrace st req now _ _)
    · intro e he
      exact ⟨redisAfterRl_idem st req now,
        fun kk rr => idemPut_not_mem_rlTrace st req now kk rr⟩
    · intro r hr; exact absurd hr (by simp)
  · subst hst htr hres
    refine ⟨redisAfterRl_locks st req now, ?_, ?_, ?_⟩
    · intro hmem
      rcases List.mem_append.mp hmem with h1 | h1
      · exact absurd h1 (lockSet_not_mem_rlTrace st req now _ _)
      · simp at h1
    · intro e he
      refine ⟨redisAfterRl_idem st req now, ?_⟩
      intro kk rr hmem
      rcases List.mem_append.mp hmem with h1 | h1
      · exact absurd h1 (idemPut_not_mem_rlTrace st req now kk rr)
      · simp at h1
    · intro r hr; exact absurd hr (by simp)
  · subst hst htr hres
    refine ⟨by simp [erase_cons_self], ?_, ?_, ?_⟩
    · intro _
      exact ⟨rlTrace st req now ++ [Eff.lockSet req.userId true], by simp⟩
    · intro e he
      refine ⟨redisAfterRl_idem st req now, ?_⟩
      intro kk rr hmem
      rcases List.mem_append.mp hmem with h1 | h1
      · exact absurd h1 (idemPut_not_mem_rlTrace st req now kk rr)
      · simp at h1
    · intro r hr; exact absurd hr (by simp)
  · subst hst htr hres
    refine ⟨by simp [erase_cons_self], ?_, ?_, ?_⟩
    · intro _
      refine ⟨rlTrace st req now ++
        [Eff.lockSet req.userId true,
         Eff.postCommit req.userId resp.orderId resp.total,
         Eff.idemPut (idemKey req.paymentRef) resp], by simp⟩
    · intro e he; exact absurd he (by simp)
    · intro r hr hmem
      simp only [Except.ok.injEq] at hr
      subst hr
      refine ⟨rlTrace st req now ++
        [Eff.lockSet req.userId true,
         Eff.postCommit req.userId resp.orderId resp.total], by simp⟩

/-- C9: the Go handler and the TypeScript controller map error messages to
identical HTTP statuses: RateLimited→429, LockDenied→409, CartInvalid,
CartEmpty, CouponInvalid and CouponAlreadyUsed→400,
InsufficientInventory→409, anything else→500; and for any valid request the
Go handler replies with exactly `statusForError e` when `processCheckout`
fails with `e`. -/
theorem http_error_status_mapping :
    (∀ e, statusForErrorTS e = statusForError e) ∧
    statusForError "Rate limit exceeded" = 429 ∧
    statusForError "Checkout in progress" = 409 ∧
    statusForError "Cart not found or not open" = 400 ∧
    statusForError "Cart is empty" = 400 ∧
    statusForError "Invalid or expired coupon" = 400 ∧
    statusForError "Coupon already used" = 400 ∧
    statusForError "Insufficient inventory" = 409 ∧
    (∀ e, e ≠ "Rate limit exceeded" → e ≠ "Checkout in progress" →
      e ≠ "Cart not found or not open" → e ≠ "Cart is empty" →
      e ≠ "Invalid or expired coupon" → e ≠ "Coupon already used" →
      e ≠ "Insufficient inventory" → statusForError e = 500) ∧
    (∀ (st : SysState) (now : Int) (gen : Nat → String) (req : CheckoutRequest)
       (st' : SysState) (tr : List Eff) (e : String),
      req.userId ≠ "" → req.cartId ≠ "" → req.paymentRef ≠ "" → req.items ≠ [] →
      processCheckout st now gen req = (st', tr, .error e) →
      Checkout st now gen req =
        (st', tr, { status := statusForError e, body := .error e })) := by
  refine ⟨?_, by decide, by decide, by decide, by decide, by decide, by decide,
          by decide, ?_, ?_⟩
  · intro e
    by_cases k1 : e = "Rate limit exceeded"
    · subst k1; decide
    by_cases k2 : e = "Checkout in progress"
    · subst k2; decide
    by_cases k3 : e = "Cart not found or not open"
    · subst k3; decide
    by_cases k4 : e = "Cart is empty"
    · subst k4; decide
    by_cases k5 : e = "Invalid or expired coupon"
    · subst k5; decide
    by_cases k6 : e = "Coupon already used"
    · subst k6; decide
    by_cases k7 : e = "Insufficient inventory"
    · subst k7; decide
    simp [statusForErrorTS, statusMapTS, alookup, statusForError,
      Ne.symm k1, Ne.symm k2, Ne.symm k3, Ne.symm k4, Ne.symm k5, Ne.symm k6, Ne.symm k7,
      k1, k2, k3, k4, k5, k6, k7]
  · intro e h1 h2 h3 h4 h5 h6 h7
    unfold statusForError
    rw [if_neg h1, if_neg h2, if_neg (by simp [h3, h4, h5, h6]), if_neg h7]
  · intro st now gen req st' tr e h1 h2 h3 h4 hpc
    unfold Checkout
    rw [if_neg (by simp [h1, h2, h3]), if_neg h4]
    simp only [hpc]

/-- C10: a request with an empty `userId`, `cartId` or `paymentRef`, or an
empty `items` list, is answered 400 with the state untouched and an empty
Redis trace — the idempotency store is not consulted, the limiter not
incremented, the lock not taken — so such a retry is never replayed from
the idempotency store even if a result for its `paymentRef` is stored. -/
theorem handler_validation_first (st : SysState) (now : Int) (gen : Nat → String)
    (req : CheckoutRequest)
    (h : req.userId = "" ∨ req.cartId = "" ∨ req.paymentRef = "" ∨ req.items = []) :
    (Checkout st now gen req).1 = st ∧ (Checkout st now gen req).2.1 = [] ∧
    (Checkout st now gen req).2.2.status = 400 ∧
    ∀ r, (Checkout st now gen req).2.2.body ≠ .ok r := by
  unfold Checkout
  by_cases h1 : req.userId = "" ∨ req.cartId = "" ∨ req.paymentRef = ""
  · rw [if_pos h1]
    exact ⟨rfl, rfl, rfl, by simp⟩
  · have h4 : req.items = [] := by tauto
    rw [if_neg h1, if_pos h4]
    exact ⟨rfl, rfl, rfl, by simp⟩

theorem evalScCoupon :
    processCoupon dbSc 500 "u1" "SAVE10" [itemA, itemB] = .ok (dbScR, 11 / 2) := by
  norm_num [processCoupon, findCoupon, couponAtCap, alookup, redeemCoupon, upsertUsage,
    cartSubtotal, itemA, itemB, dbSc, dbScR, wh1]

theorem evalScItems : loadCartItems dbSc "c1" = [itemA, itemB] := by
  simp [loadCartItems, dbSc, itemA, itemB]

theorem evalScReserve :
    reserveInventory dbScR.inventory [itemA, itemB] wh1 =
      .ok [(("p1", wh1), (10, 2)), (("p2", wh1), (10, 1))] := by
  norm_num [reserveInventory, alookup, amodify, dbScR, itemA, itemB, wh1,
    show ("p1" : String) ≠ "p2" by decide, show ("p2" : String) ≠ "p1" by decide]

theorem evalScTx : executeCheckoutTransaction dbSc 500 genK reqSc = .ok (dbScOut, respSc) := by
  have hct : computeTax ((99 : ℚ) / 2) = 99 / 25 := by
    norm_num [computeTax, truncTowardZero, Int.tdiv]
  have h1 : findCart dbSc "c1" "u1" = some { id := "c1", userId := "u1", status := "open" } := by
    simp [findCart, dbSc]
  have h3 : getWarehouseForUser dbScR "u1" = wh1 := by
    simp [getWarehouseForUser, dbScR, warehouseByRegion, alookup, wh1]
  unfold executeCheckoutTransaction
  simp only [reqSc]
  simp [h1, evalScItems, evalScCoupon, evalScReserve, h3]
  norm_num [finalizeOrder, orderRowOf, cartSubtotal, hct, computeShipping, maxFloat,
    itemA, itemB, dbScR, dbScOut, respSc, ordSc, genK, wh1, List.enum, List.enumFrom]

theorem evalSc : processCheckout stSc 500 genK reqSc = (stScOut, trSc, .ok respSc) := by
  have h := processCheckout_tx_ok stSc 500 genK reqSc dbScOut respSc
    (by simp [stSc, alookup]) (by norm_num [rlCount, rlKey, stSc, alookup, reqSc])
    (by simp [stSc, reqSc]) evalScTx
  rw [h]
  norm_num [redisAfterRl, rlTrace, rlCount, rlKey, idemKey, astore, alookup, stSc, stScOut,
    trSc, respSc, reqSc, List.erase_cons_head, genK]

theorem evalInsTx :
    executeCheckoutTransaction dbIns 500 genK reqIns = .error "Insufficient inventory" := by
  norm_num [executeCheckoutTransaction, findCart, loadCartItems, getWarehouseForUser,
    warehouseByRegion, reserveInventory, alookup, dbIns, reqIns, genK, wh1]

theorem evalIns :
    processCheckout stIns 500 genK reqIns = (stInsOut, trIns, .error "Insufficient inventory") := by
  have h := processCheckout_tx_error stIns 500 genK reqIns "Insufficient inventory"
    (by simp [stIns, alookup]) (by norm_num [rlCount, rlKey, stIns, alookup, reqIns])
    (by simp [stIns, reqIns]) evalInsTx
  rw [h]
  norm_num [redisAfterRl, rlTrace, rlCount, rlKey, idemKey, astore, alookup, stIns, stInsOut,
    trIns, reqIns, List.erase_cons_head, genK]

theorem evalRate :
    processCheckout stRate 500 genK reqIns = (stRateOut, trRate, .error "Rate limit exceeded") := by
  have h := processCheckout_rl_reject stRate 500 genK reqIns
    (by simp [stRate, alookup]) (by norm_num [rlCount, rlKey, stRate, alookup, reqIns])
  rw [h]
  norm_num [redisAfterRl, rlTrace, rlCount, rlKey, idemKey, astore, alookup, stRate, stRateOut,
    trRate, reqIns, genK]

/-- C1 witness -/
theorem checkout_amounts_consistent_witness :
    ∃ o : OrderRow, dbScOut.orders = dbSc.orders ++ [o] ∧
      o.subtotal = ((loadCartItems dbSc reqSc.cartId).map (fun i => (i.qty : ℚ) * i.unitPrice)).sum ∧
      o.shipping = (if o.subtotal > 100 then 0
        else 599 / 100 + (((loadCartItems dbSc reqSc.cartId).length : ℚ) - 1) * (99 / 100)) ∧
      o.total = max 0 (o.subtotal - o.discount + o.tax + o.shipping) ∧
      respSc.orderId = o.id ∧ respSc.status = "pending" ∧ o.status = "pending" ∧
      respSc.total = o.total :=
  checkout_amounts_consistent dbSc 500 genK reqSc dbScOut respSc evalScTx

/-- C2 witness -/
theorem checkout_tax_truncation_witness :
    (∃ o : OrderRow, dbScOut.orders = dbSc.orders ++ [o] ∧
      o.tax = (truncTowardZero ((o.subtotal - o.discount) * (8 / 100) * 100) : ℚ) / 100 ∧
      o.total = max 0 (o.subtotal - o.discount + o.tax + o.shipping)) ∧
    computeTax ((55 : ℚ) - 11 / 2) = 99 / 25 ∧
    computeTaxTS ((55 : ℚ) - 11 / 2) = 99 / 25 :=
  checkout_tax_truncation dbSc 500 genK reqSc dbScOut respSc evalScTx

/-- C4 witness -/
theorem checkout_error_rollback_witness :
    stInsOut.db = stIns.db ∧ stInsOut.redis.idem = stIns.redis.idem ∧
    stInsOut.db.orders = stIns.db.orders ∧ stInsOut.db.orderItems = stIns.db.orderItems ∧
    stInsOut.db.carts = stIns.db.carts ∧ stInsOut.db.coupons = stIns.db.coupons ∧
    stInsOut.db.couponUsage = stIns.db.couponUsage ∧
    stInsOut.db.inventory = stIns.db.inventory ∧
    stInsOut.db.events = stIns.db.events :=
  checkout_error_rollback stIns 500 genK reqIns stInsOut trIns "Insufficient inventory" evalIns

/-- C7 witness -/
theorem rate_limiter_window_witness :
    alookup (rlKey reqIns 500) stRateOut.redis.rate =
      some ((alookup (rlKey reqIns 500) stRate.redis.rate).getD 0 + 1) ∧
    ((Except.error "Rate limit exceeded" : Except String CheckoutResponse) =
        .error "Rate limit exceeded" ↔
      10 < (alookup (rlKey reqIns 500) stRate.redis.rate).getD 0 + 1) ∧
    ((alookup (rlKey reqIns 500) stRate.redis.rate).getD 0 + 1 = 1 →
      alookup (rlKey reqIns 500) stRateOut.redis.rateExpire = some 90) :=
  rate_limiter_window stRate 500 genK reqIns stRateOut trRate
    (.error "Rate limit exceeded") rfl evalRate

/-- C8 witness -/
theorem lock_release_and_idem_write_order_witness :
    stScOut.redis.locks = stSc.redis.locks ∧
    (Eff.lockSet reqSc.userId true ∈ trSc → ∃ l, trSc = l ++ [Eff.lockDel reqSc.userId]) ∧
    (∀ e, (Except.ok respSc : Except String CheckoutResponse) = .error e →
      stScOut.redis.idem = stSc.redis.idem ∧ ∀ kk rr, Eff.idemPut kk rr ∉ trSc) ∧
    (∀ r, (Except.ok respSc : Except String CheckoutResponse) = .ok r →
      Eff.lockSet reqSc.userId true ∈ trSc →
      ∃ l, trSc = l ++ [Eff.idemPut (idemKey reqSc.paymentRef) r, Eff.lockDel reqSc.userId]) :=
  lock_release_and_idem_write_order stSc 500 genK reqSc stScOut trSc (.ok respSc) evalSc

/-- C10 witness -/
theorem handler_validation_first_witness :
    (Checkout stWit 0 genK reqEmpty).1 = stWit ∧
    (Checkout stWit 0 genK reqEmpty).2.1 = [] ∧
    (Checkout stWit 0 genK reqEmpty).2.2.status = 400 ∧
    ∀ r, (Checkout stWit 0 genK reqEmpty).2.2.body ≠ .ok r :=
  handler_validation_first stWit 0 genK reqEmpty (Or.inr (Or.inr (Or.inr rfl)))


/-- C3 witness: a state whose idempotency store already holds the response
for `pay1`; both calls return it verbatim and change nothing. -/
theorem checkout_idempotent_replay_witness :
    processCheckout stWit 0 genK reqSc =
      (stWit, [Eff.idemGet (idemKey reqSc.paymentRef)], .ok respSc) ∧
    processCheckout stWit 7 genK reqSc =
      (stWit, [Eff.idemGet (idemKey reqSc.paymentRef)], .ok respSc) := by
  have h1 := checkout_idempotent_replay.1 stWit 0 genK reqSc respSc
    (by simp [stWit, alookup, reqSc])
  exact ⟨h1, checkout_idempotent_replay.2 stWit 0 genK reqSc stWit _ respSc 7 genK h1⟩

/-- C5 witness: redeeming the 10% coupon on the 55.00 cart yields discount
5.50, a usage row at 1 and a bumped `used_count`. -/
theorem coupon_validation_and_redemption_witness :
    alookup ("u1", "SAVE10") dbScR.couponUsage = some 1 ∧
    ∃ c, findCoupon dbSc.coupons "SAVE10" = some c ∧
      findCoupon dbScR.coupons "SAVE10" = some { c with usedCount := c.usedCount + 1 } ∧
      (11 / 2 : ℚ) = (if c.ctype == "percentage" then
        cartSubtotal [itemA, itemB] * (c.value / 100) else c.value) :=
  (coupon_validation_and_redemption dbSc 500 "u1" "SAVE10" [itemA, itemB]).2.2
    dbScR (11 / 2) evalScCoupon (by intro uc h; simp [dbSc, alookup] at h)

theorem evalReserveC : reserveInventory invA [itemC] "w" = .ok invB := by
  norm_num [reserveInventory, alookup, amodify, invA, invB, itemC]

/-- C6 witness: reserving 2 units against a (5 available, 2 reserved) row
keeps the invariant and the available quantity. -/
theorem inventory_reservation_rules_witness :
    (∀ k a r, alookup k invB = some (a, r) → r ≤ a) ∧
    (∀ k q, alookup k invA = some q → ∃ r', alookup k invB = some (q.1, r') ∧ q.2 ≤ r') :=
  inventory_reservation_rules.2.2.2 "w" [itemC] invA invB
    (by intro k a r h; simp [invA, alookup] at h; omega)
    (by intro i hi; simp at hi; simp [hi, itemC])
    evalReserveC

/-- C9 witness: an unmapped message gets 500, and the insufficient-inventory
failure is answered 409 by the handler. -/
theorem http_error_status_mapping_witness :
    statusForError "boom" = 500 ∧
    Checkout stIns 500 genK reqIns =
      (stInsOut, trIns,
       { status := statusForError "Insufficient inventory",
         body := .error "Insufficient inventory" }) := by
  refine ⟨http_error_status_mapping.2.2.2.2.2.2.2.2.1 "boom" (by decide) (by decide)
      (by decide) (by decide) (by decide) (by decide) (by decide), ?_⟩
  exact http_error_status_mapping.2.2.2.2.2.2.2.2.2 stIns 500 genK reqIns stInsOut trIns
    "Insufficient inventory" (by decide) (by decide) (by decide) (by simp [reqIns]) evalIns
